import Mathlib

/-!
Verification of the Emiratisation risk-assessment tool
(tasc-outsourcing/Emiratisation).

Two engines coexist in the repository:

* the `RiskEngine` described by the specification (quota rules, grace
  period, fine per missing worker, 0-100 risk score).  Its database
  schema (the `validEmirates`, `gap`, `riskScore`, ... columns of
  `shared/schema` for `AssessmentInput`), its route caller
  (`POST /api/assessments` invoking
  `storage.createAssessment(AssessmentInput)`), its admin configuration
  (integer `emiratisation_target_percent`, default 8, and integer
  `fine_per_emirati`, default 96000, both read with `parseInt`), and its
  project documentation are in the repository, but the storage module
  implementing it is not present under `src/`; it is modelled here from
  the specification.

* `MemStorage.createAssessment` in `src/server/storage.ts`, an
  industry-rate variant, embedded here directly from that source.
-/

namespace Emiratisation

/-- Enum \x7bmainland, freezone\x7d: the `jurisdiction` field of `CompanyProfile`. -/
inductive Jurisdiction where
  | mainland
  | freezone
deriving DecidableEq, Repr

/-- Enum \x7blow, medium, high\x7d: the `riskLevel` field of `RiskAssessmentResult`. -/
inductive RiskLevel where
  | low
  | medium
  | high
deriving DecidableEq, Repr

/-- Modelled from the spec: `CompanyProfile`, the immutable input to one
assessment (the storage module implementing the spec's risk engine is
missing from `src/`; only its schema, route caller, admin configuration
and documentation are present). -/
structure CompanyProfile where
  jurisdiction : Jurisdiction
  sector : String
  totalEmployees : Nat
  skilledEmployees : Nat
  currentQualifyingWorkers : Nat
  payrollComplianceConfirmed : Bool
  recentDeparture : Bool
  daysSinceDeparture : Option Nat
deriving DecidableEq, Repr

/-- Modelled from the spec: `RiskConfig`, externally supplied
configuration for the risk engine.  The repository's admin panel stores
the target percent and the fine per missing worker as integers
(`parseInt`, defaults 8 and 96000), so both are naturals here. -/
structure RiskConfig where
  designatedSectors : List String
  smallEstablishmentMin : Nat
  smallEstablishmentMax : Nat
  smallEstablishmentQuota : Nat
  largeEstablishmentThreshold : Nat
  targetPercent : Nat
  finePerMissingWorker : Nat
  gracePeriodDays : Nat
  riskLowMin : ℤ
  riskMediumMin : ℤ
deriving DecidableEq, Repr

/-- Modelled from the spec: `RiskAssessmentResult`, the output record of
one evaluation. -/
structure RiskAssessmentResult where
  requiredCount : ℤ
  validCount : ℤ
  gap : ℤ
  fineEstimate : ℤ
  riskScore : ℤ
  riskLevel : RiskLevel
deriving DecidableEq, Repr

/-- Modelled from the spec: `SectorClassifier.isDesignated(sector, config)`
returns true iff `sector` is a member of `config.designatedSectors`. -/
def isDesignated (sector : String) (config : RiskConfig) : Bool :=
  config.designatedSectors.contains sector

namespace RiskEngine

/-- Modelled from the spec: Step 1, the required quota, evaluated in
strict order with the first matching rule winning: free-zone exemption,
then the small-establishment fixed quota, then the percentage quota for
large establishments (`ceiling(skilledEmployees * targetPercent / 100)`,
computed on naturals as `(s*t + 99) / 100`), else 0. -/
def requiredCount (p : CompanyProfile) (c : RiskConfig) : ℤ :=
  if p.jurisdiction = Jurisdiction.freezone then 0
  else if c.smallEstablishmentMin ≤ p.totalEmployees ∧
      p.totalEmployees ≤ c.smallEstablishmentMax ∧
      isDesignated p.sector c = true then
    (c.smallEstablishmentQuota : ℤ)
  else if c.largeEstablishmentThreshold ≤ p.skilledEmployees then
    (((p.skilledEmployees * c.targetPercent + 99) / 100 : ℕ) : ℤ)
  else 0

/-- Modelled from the spec: the grace-period bonus condition of Step 2 —
`recentDeparture` is true and `daysSinceDeparture` is present and at most
`gracePeriodDays` (a missing value means the grace period does not
apply). -/
def graceApplies (p : CompanyProfile) (c : RiskConfig) : Bool :=
  p.recentDeparture &&
    match p.daysSinceDeparture with
    | some d => decide (d ≤ c.gracePeriodDays)
    | none => false

/-- Modelled from the spec: Step 2, the valid/qualifying count — the
payroll-compliance gate on the current headcount plus the independent
grace-period bonus. -/
def validCount (p : CompanyProfile) (c : RiskConfig) : ℤ :=
  (if p.payrollComplianceConfirmed then (p.currentQualifyingWorkers : ℤ) else 0) +
    (if graceApplies p c then 1 else 0)

/-- Modelled from the spec: Step 3, `gap = max(0, requiredCount - validCount)`. -/
def gap (p : CompanyProfile) (c : RiskConfig) : ℤ :=
  max 0 (requiredCount p c - validCount p c)

/-- Modelled from the spec: Step 3, `fineEstimate = gap * finePerMissingWorker`. -/
def fineEstimate (p : CompanyProfile) (c : RiskConfig) : ℤ :=
  gap p c * (c.finePerMissingWorker : ℤ)

/-- Modelled from the spec: Step 4 before clamping —
`100 - gap*20`, minus 10 more when `gap ≥ 2`, plus 5 when payroll
compliance is confirmed. -/
def riskScoreRaw (p : CompanyProfile) (c : RiskConfig) : ℤ :=
  100 - gap p c * 20 - (if 2 ≤ gap p c then 10 else 0) +
    (if p.payrollComplianceConfirmed then 5 else 0)

/-- Modelled from the spec: Step 4, the risk score clamped to `[0, 100]`. -/
def riskScore (p : CompanyProfile) (c : RiskConfig) : ℤ :=
  max 0 (min 100 (riskScoreRaw p c))

/-- Modelled from the spec: Step 4, the tier from the configured cutoffs:
low when the score is at least `riskLowMin`, else medium when at least
`riskMediumMin`, else high. -/
def riskLevelOfScore (score : ℤ) (c : RiskConfig) : RiskLevel :=
  if c.riskLowMin ≤ score then RiskLevel.low
  else if c.riskMediumMin ≤ score then RiskLevel.medium
  else RiskLevel.high

/-- Modelled from the spec: the single evaluation entrypoint
`evaluate(profile, config) -> RiskAssessmentResult`. -/
def evaluate (p : CompanyProfile) (c : RiskConfig) : RiskAssessmentResult :=
  { requiredCount := requiredCount p c
    validCount := validCount p c
    gap := gap p c
    fineEstimate := fineEstimate p c
    riskScore := riskScore p c
    riskLevel := riskLevelOfScore (riskScore p c) c }

end RiskEngine

/-- Modelled from the spec: the persistence collaborator's state — stored
results keyed by an opaque identifier, plus the next identifier. -/
structure SpecStorage where
  currentAssessmentId : Nat
  stored : List (Nat × CompanyProfile × RiskAssessmentResult)
deriving DecidableEq, Repr

/-- Modelled from the spec: the route handler evaluates the profile and
persists the result keyed by a fresh identifier; the engine itself reads
none of the stored state. -/
def SpecStorage.createAssessment (s : SpecStorage) (p : CompanyProfile)
    (c : RiskConfig) : RiskAssessmentResult × SpecStorage :=
  let r := RiskEngine.evaluate p c
  (r, ⟨s.currentAssessmentId + 1, s.stored ++ [(s.currentAssessmentId, p, r)]⟩)

/-! The `MemStorage` variant of `src/server/storage.ts`, embedded from
the source.  JavaScript floating-point numbers (`emiratisationRate`,
`riskMultiplier`, parsed configuration values) are modelled as exact
rationals, and `new Date().toISOString()` is an explicit `now` argument.
Rational division by zero yields 0 here where JavaScript would produce a
non-finite number; no theorem below depends on that case. -/

/-- An industry record (`shared/schema.ts`, table `industries`). -/
structure Industry where
  id : Nat
  name : String
  emiratisationRate : ℚ
  riskMultiplier : ℚ
  isActive : Bool
deriving DecidableEq, Repr

/-- A configuration record (`shared/schema.ts`, table `configuration`);
`value` is stored as a string in the source and read back through
`parseFloat`, modelled as the parsed rational. -/
structure Configuration where
  id : Nat
  key : String
  value : ℚ
  description : String
deriving DecidableEq, Repr

/-- The validated input of `MemStorage.createAssessment`
(`insertAssessmentSchema` of `shared/schema.ts`). -/
structure InsertAssessment where
  industryId : Nat
  jurisdiction : String
  skilledEmployees : Nat
  unskilledEmployees : Nat
  currentEmirates : Nat
deriving DecidableEq, Repr

/-- A stored assessment (`shared/schema.ts`, table `assessments`). -/
structure Assessment where
  id : Nat
  industryId : Nat
  jurisdiction : String
  skilledEmployees : Nat
  unskilledEmployees : Nat
  totalEmployees : Nat
  requiredEmirates : ℤ
  currentEmirates : Nat
  riskPercentage : ℚ
  riskLevel : String
  potentialFine : ℚ
  createdAt : String
deriving DecidableEq, Repr

/-- The in-memory state of `MemStorage` (`src/server/storage.ts`): three
keyed maps plus the three id counters. -/
structure MemStorage where
  industries : List (Nat × Industry)
  assessments : List (Nat × Assessment)
  configuration : List (String × Configuration)
  currentIndustryId : Nat
  currentAssessmentId : Nat
  currentConfigId : Nat
deriving DecidableEq, Repr

/-- Lookup in the industries map (`MemStorage.getIndustry`). -/
def MemStorage.getIndustry (s : MemStorage) (id : Nat) : Option Industry :=
  (s.industries.find? (fun kv => kv.1 == id)).map Prod.snd

/-- Lookup in the configuration map (`MemStorage.getConfigurationByKey`). -/
def MemStorage.getConfigurationByKey (s : MemStorage) (key : String) :
    Option Configuration :=
  (s.configuration.find? (fun kv => kv.1 == key)).map Prod.snd

/-- Embedded from `src/server/storage.ts`, lines 117-159
(`MemStorage.createAssessment`): guard on the industry lookup, compute the assessment values,
then advance the id counter and store the record. -/
def MemStorage.createAssessment (s : MemStorage) (ins : InsertAssessment)
    (now : String) : Except String Assessment × MemStorage :=
  match s.getIndustry ins.industryId with
  | none => (Except.error "Industry not found", s)
  | some industry =>
    let totalEmployees := ins.skilledEmployees + ins.unskilledEmployees
    let jurisdictionMultiplier : ℚ := if ins.jurisdiction = "mainland" then 1 else 3 / 4
    let adjustedRate : ℚ := industry.emiratisationRate * jurisdictionMultiplier
    let requiredEmirates : ℤ := ⌈(totalEmployees : ℚ) * adjustedRate⌉
    let gap : ℤ := (ins.currentEmirates : ℤ) - requiredEmirates
    let riskPercentage : ℚ :=
      min 100 (max 0 (-(gap : ℚ) / (requiredEmirates : ℚ) * 100))
    let riskLevel : String :=
      if riskPercentage ≤ 25 then "low"
      else if riskPercentage ≤ 50 then "medium"
      else "high"
    let baseFineAmount : ℚ :=
      match s.getConfigurationByKey "base_fine" with
      | some cfg => cfg.value
      | none => 30000
    let frezoneReduction : ℚ :=
      match s.getConfigurationByKey "freezone_reduction" with
      | some cfg => cfg.value
      | none => 1 / 4
    let jurisdictionFineMultiplier : ℚ :=
      if ins.jurisdiction = "mainland" then 1 else 1 - frezoneReduction
    let potentialFine : ℚ :=
      |(gap : ℚ)| * baseFineAmount * jurisdictionFineMultiplier * industry.riskMultiplier
    let id := s.currentAssessmentId
    let assessment : Assessment :=
      { id := id
        industryId := ins.industryId
        jurisdiction := ins.jurisdiction
        skilledEmployees := ins.skilledEmployees
        unskilledEmployees := ins.unskilledEmployees
        totalEmployees := totalEmployees
        requiredEmirates := requiredEmirates
        currentEmirates := ins.currentEmirates
        riskPercentage := riskPercentage
        riskLevel := riskLevel
        potentialFine := max 0 potentialFine
        createdAt := now }
    (Except.ok assessment,
      { s with
          assessments := s.assessments ++ [(id, assessment)]
          currentAssessmentId := s.currentAssessmentId + 1 })

/-! Helper lemmas and sample inputs for the witnesses. -/

/-- The natural-number form `(n + 99) / 100` used by the engine equals the
mathematical ceiling of `n / 100`. -/
theorem ceil_percent_eq (n : Nat) :
    (((n + 99) / 100 : Nat) : ℤ) = ⌈(n : ℚ) / 100⌉ := by
  have h1 : 100 * ((n + 99) / 100) ≤ n + 99 := by omega
  have h2 : n ≤ 100 * ((n + 99) / 100) := by omega
  have hq1 : (100 : ℚ) * (((n + 99) / 100 : ℕ) : ℚ) ≤ (n : ℚ) + 99 := by exact_mod_cast h1
  have hq2 : (n : ℚ) ≤ 100 * (((n + 99) / 100 : ℕ) : ℚ) := by exact_mod_cast h2
  symm
  rw [Int.ceil_eq_iff, Int.cast_natCast]
  constructor
  · rw [lt_div_iff₀ (by norm_num : (0:ℚ) < 100)]
    linarith
  · rw [div_le_iff₀ (by norm_num : (0:ℚ) < 100)]
    linarith

/-- The spec's default configuration (§6), with two designated sectors. -/
def cfg0 : RiskConfig :=
  { designatedSectors := ["Construction", "Education"]
    smallEstablishmentMin := 20
    smallEstablishmentMax := 49
    smallEstablishmentQuota := 2
    largeEstablishmentThreshold := 50
    targetPercent := 8
    finePerMissingWorker := 96000
    gracePeriodDays := 90
    riskLowMin := 71
    riskMediumMin := 41 }

/-- Scenario A of the spec: mainland, designated sector, 35 total, 10
skilled, no qualifying workers, payroll non-compliant, no departure. -/
def pA : CompanyProfile :=
  { jurisdiction := .mainland, sector := "Construction", totalEmployees := 35
    skilledEmployees := 10, currentQualifyingWorkers := 0
    payrollComplianceConfirmed := false, recentDeparture := false
    daysSinceDeparture := none }

/-- Scenario B of the spec: mainland, non-designated sector, 30 total and
skilled, 2 qualifying workers, payroll compliant, no departure. -/
def pB : CompanyProfile :=
  { jurisdiction := .mainland, sector := "Other", totalEmployees := 30
    skilledEmployees := 30, currentQualifyingWorkers := 2
    payrollComplianceConfirmed := true, recentDeparture := false
    daysSinceDeparture := none }

/-- A variant of scenario B with a different qualifying headcount but the
same risk score. -/
def pB2 : CompanyProfile :=
  { jurisdiction := .mainland, sector := "Retail", totalEmployees := 12
    skilledEmployees := 3, currentQualifyingWorkers := 5
    payrollComplianceConfirmed := true, recentDeparture := false
    daysSinceDeparture := none }

/-- Scenario C of the spec: mainland, 60 skilled employees, 2 qualifying
workers, payroll compliant. -/
def pC : CompanyProfile :=
  { jurisdiction := .mainland, sector := "Other", totalEmployees := 60
    skilledEmployees := 60, currentQualifyingWorkers := 2
    payrollComplianceConfirmed := true, recentDeparture := false
    daysSinceDeparture := none }

/-- Scenario D of the spec: a free-zone profile with large headcounts. -/
def pD : CompanyProfile :=
  { jurisdiction := .freezone, sector := "Banking", totalEmployees := 100
    skilledEmployees := 80, currentQualifyingWorkers := 0
    payrollComplianceConfirmed := true, recentDeparture := false
    daysSinceDeparture := none }

/-- Scenario E of the spec: mainland, payroll non-compliant, a qualifying
worker departed 45 days ago (within the 90-day grace window). -/
def pE : CompanyProfile :=
  { jurisdiction := .mainland, sector := "Other", totalEmployees := 10
    skilledEmployees := 5, currentQualifyingWorkers := 7
    payrollComplianceConfirmed := false, recentDeparture := true
    daysSinceDeparture := some 45 }

/-- A profile whose sector is not in the designated set of `cfg0`. -/
def pX : CompanyProfile :=
  { jurisdiction := .mainland, sector := "Astrology", totalEmployees := 60
    skilledEmployees := 60, currentQualifyingWorkers := 0
    payrollComplianceConfirmed := true, recentDeparture := false
    daysSinceDeparture := none }

/-! Claims settled against the definitions above. -/

/-- C1: for every mainland profile the required quota follows the first
matching rule: the fixed small-establishment quota when the employee
count is in the configured band and the sector is designated; else the
ceiling of `skilledEmployees * targetPercent / 100` when the skilled
count reaches the large-establishment threshold; else 0. -/
theorem claim_C1 (p : CompanyProfile) (c : RiskConfig)
    (hm : p.jurisdiction = Jurisdiction.mainland) :
    ((c.smallEstablishmentMin ≤ p.totalEmployees ∧
        p.totalEmployees ≤ c.smallEstablishmentMax ∧
        isDesignated p.sector c = true) →
      (RiskEngine.evaluate p c).requiredCount = (c.smallEstablishmentQuota : ℤ)) ∧
    (¬(c.smallEstablishmentMin ≤ p.totalEmployees ∧
        p.totalEmployees ≤ c.smallEstablishmentMax ∧
        isDesignated p.sector c = true) →
      c.largeEstablishmentThreshold ≤ p.skilledEmployees →
      (RiskEngine.evaluate p c).requiredCount =
        ⌈((p.skilledEmployees * c.targetPercent : ℕ) : ℚ) / 100⌉) ∧
    (¬(c.smallEstablishmentMin ≤ p.totalEmployees ∧
        p.totalEmployees ≤ c.smallEstablishmentMax ∧
        isDesignated p.sector c = true) →
      p.skilledEmployees < c.largeEstablishmentThreshold →
      (RiskEngine.evaluate p c).requiredCount = 0) := by
  have hfz : ¬p.jurisdiction = Jurisdiction.freezone := by
    rw [hm]
    exact fun h => Jurisdiction.noConfusion h
  refine ⟨fun hband => ?_, fun hband hskill => ?_, fun hband hskill => ?_⟩
  · show RiskEngine.requiredCount p c = _
    unfold RiskEngine.requiredCount
    rw [if_neg hfz, if_pos hband]
  · show RiskEngine.requiredCount p c = _
    unfold RiskEngine.requiredCount
    rw [if_neg hfz, if_neg hband, if_pos hskill, ceil_percent_eq]
  · show RiskEngine.requiredCount p c = _
    unfold RiskEngine.requiredCount
    rw [if_neg hfz, if_neg hband, if_neg (not_le.mpr hskill)]

/-- Witness for C1: scenario A hits the small-establishment rule and
scenario C the percentage rule. -/
theorem claim_C1_witness :
    pA.jurisdiction = Jurisdiction.mainland ∧
      (RiskEngine.evaluate pA cfg0).requiredCount = (cfg0.smallEstablishmentQuota : ℤ) ∧
      (RiskEngine.evaluate pC cfg0).requiredCount =
        ⌈((pC.skilledEmployees * cfg0.targetPercent : ℕ) : ℚ) / 100⌉ :=
  ⟨rfl, (claim_C1 pA cfg0 rfl).1 (by decide),
    (claim_C1 pC cfg0 rfl).2.1 (by decide) (by decide)⟩

/-- C2: every free-zone profile, whatever its other fields, evaluates to
`requiredCount = 0`, `gap = 0` and `fineEstimate = 0`. -/
theorem claim_C2 (p : CompanyProfile) (c : RiskConfig)
    (h : p.jurisdiction = Jurisdiction.freezone) :
    (RiskEngine.evaluate p c).requiredCount = 0 ∧
      (RiskEngine.evaluate p c).gap = 0 ∧
      (RiskEngine.evaluate p c).fineEstimate = 0 := by
  have hreq : RiskEngine.requiredCount p c = 0 := by
    unfold RiskEngine.requiredCount
    rw [if_pos h]
  have hvalid : 0 ≤ RiskEngine.validCount p c := by
    unfold RiskEngine.validCount
    have hbase : (0:ℤ) ≤
        if p.payrollComplianceConfirmed then (p.currentQualifyingWorkers : ℤ) else 0 := by
      split
      · exact Int.natCast_nonneg _
      · exact le_refl 0
    have hbonus : (0:ℤ) ≤ if RiskEngine.graceApplies p c then 1 else 0 := by
      split
      · norm_num
      · exact le_refl 0
    linarith
  have hgap : RiskEngine.gap p c = 0 := by
    unfold RiskEngine.gap
    rw [hreq]
    exact max_eq_left (by linarith)
  refine ⟨hreq, hgap, ?_⟩
  show RiskEngine.fineEstimate p c = 0
  unfold RiskEngine.fineEstimate
  rw [hgap, zero_mul]

/-- Witness for C2: scenario D, a free-zone profile with large
headcounts. -/
theorem claim_C2_witness :
    pD.jurisdiction = Jurisdiction.freezone ∧
      ((RiskEngine.evaluate pD cfg0).requiredCount = 0 ∧
        (RiskEngine.evaluate pD cfg0).gap = 0 ∧
        (RiskEngine.evaluate pD cfg0).fineEstimate = 0) :=
  ⟨rfl, claim_C2 pD cfg0 rfl⟩

/-- C3: the valid count is the payroll-gated base plus a +1 grace bonus
when a departure happened, the days-since-departure value is present and
is within the grace period; the bonus applies even when the compliance
gate zeroes the base. -/
theorem claim_C3 (p : CompanyProfile) (c : RiskConfig) :
    (RiskEngine.evaluate p c).validCount =
      (if p.payrollComplianceConfirmed then (p.currentQualifyingWorkers : ℤ) else 0) +
        (match p.daysSinceDeparture with
          | some d => if p.recentDeparture = true ∧ d ≤ c.gracePeriodDays then 1 else 0
          | none => 0) ∧
    (p.payrollComplianceConfirmed = false → p.recentDeparture = true →
      ∀ d : Nat, p.daysSinceDeparture = some d → d ≤ c.gracePeriodDays →
        (RiskEngine.evaluate p c).validCount = 1) := by
  constructor
  · show RiskEngine.validCount p c = _
    unfold RiskEngine.validCount RiskEngine.graceApplies
    rcases hds : p.daysSinceDeparture with _ | d <;>
      cases hr : p.recentDeparture <;>
        simp [hds, hr]
  · intro hpc hr d hds hd
    show RiskEngine.validCount p c = 1
    unfold RiskEngine.validCount RiskEngine.graceApplies
    simp [hpc, hr, hds, hd]

/-- Witness for C3: scenario E, payroll non-compliant with a departure 45
days ago, yields a valid count of 1. -/
theorem claim_C3_witness :
    pE.payrollComplianceConfirmed = false ∧ pE.recentDeparture = true ∧
      pE.daysSinceDeparture = some 45 ∧ 45 ≤ cfg0.gracePeriodDays ∧
      (RiskEngine.evaluate pE cfg0).validCount = 1 :=
  ⟨rfl, rfl, rfl, by decide, (claim_C3 pE cfg0).2 rfl rfl 45 rfl (by decide)⟩

/-- C4: the computed gap is `max(0, requiredCount - validCount)` and is
never negative. -/
theorem claim_C4 (p : CompanyProfile) (c : RiskConfig) :
    (RiskEngine.evaluate p c).gap =
      max 0 ((RiskEngine.evaluate p c).requiredCount - (RiskEngine.evaluate p c).validCount) ∧
    0 ≤ (RiskEngine.evaluate p c).gap :=
  ⟨rfl, le_max_left 0 _⟩

/-- C5: the fine estimate is exactly `gap * finePerMissingWorker`, is
never negative, and depends on nothing but the gap (no jurisdiction or
sector factor). -/
theorem claim_C5 (p : CompanyProfile) (c : RiskConfig) :
    (RiskEngine.evaluate p c).fineEstimate =
      (RiskEngine.evaluate p c).gap * (c.finePerMissingWorker : ℤ) ∧
    0 ≤ (RiskEngine.evaluate p c).fineEstimate ∧
    ∀ p' : CompanyProfile, RiskEngine.gap p' c = RiskEngine.gap p c →
      (RiskEngine.evaluate p' c).fineEstimate = (RiskEngine.evaluate p c).fineEstimate := by
  refine ⟨rfl, ?_, fun p' hgap => ?_⟩
  · show 0 ≤ RiskEngine.fineEstimate p c
    unfold RiskEngine.fineEstimate RiskEngine.gap
    exact mul_nonneg (le_max_left 0 _) (Int.natCast_nonneg _)
  · show RiskEngine.fineEstimate p' c = RiskEngine.fineEstimate p c
    unfold RiskEngine.fineEstimate
    rw [hgap]

/-- Witness for C5: a free-zone and a mainland profile with the same gap
get the same fine. -/
theorem claim_C5_witness :
    RiskEngine.gap pD cfg0 = RiskEngine.gap pB cfg0 ∧
      (RiskEngine.evaluate pD cfg0).fineEstimate = (RiskEngine.evaluate pB cfg0).fineEstimate :=
  ⟨by decide, (claim_C5 pB cfg0).2.2 pD (by decide)⟩

/-- C6: the risk score is `100 - gap*20`, minus 10 more when `gap ≥ 2`,
plus 5 when payroll compliance is confirmed, clamped to `[0, 100]`; it
always lies in `[0, 100]`. -/
theorem claim_C6 (p : CompanyProfile) (c : RiskConfig) :
    (RiskEngine.evaluate p c).riskScore =
      max 0 (min 100
        (100 - (RiskEngine.evaluate p c).gap * 20 -
          (if 2 ≤ (RiskEngine.evaluate p c).gap then 10 else 0) +
          (if p.payrollComplianceConfirmed then 5 else 0))) ∧
    0 ≤ (RiskEngine.evaluate p c).riskScore ∧
    (RiskEngine.evaluate p c).riskScore ≤ 100 := by
  refine ⟨rfl, le_max_left 0 _, ?_⟩
  show max 0 (min 100 (RiskEngine.riskScoreRaw p c)) ≤ 100
  exact max_le (by norm_num) (min_le_left _ _)

/-- C7: the risk level is determined from the risk score alone through
the configured cutoffs: low from `riskLowMin` up, else medium from
`riskMediumMin` up, else high. -/
theorem claim_C7 (p : CompanyProfile) (c : RiskConfig) :
    (RiskEngine.evaluate p c).riskLevel =
      (if c.riskLowMin ≤ (RiskEngine.evaluate p c).riskScore then RiskLevel.low
        else if c.riskMediumMin ≤ (RiskEngine.evaluate p c).riskScore then RiskLevel.medium
        else RiskLevel.high) ∧
    ∀ p' : CompanyProfile,
      (RiskEngine.evaluate p' c).riskScore = (RiskEngine.evaluate p c).riskScore →
        (RiskEngine.evaluate p' c).riskLevel = (RiskEngine.evaluate p c).riskLevel :=
  ⟨rfl, fun _ h => congrArg (fun s => RiskEngine.riskLevelOfScore s c) h⟩

/-- Witness for C7: scenario B and its variant share the score 100 and
hence the level. -/
theorem claim_C7_witness :
    (RiskEngine.evaluate pB cfg0).riskScore = (RiskEngine.evaluate pB2 cfg0).riskScore ∧
      (RiskEngine.evaluate pB cfg0).riskLevel = (RiskEngine.evaluate pB2 cfg0).riskLevel :=
  ⟨by decide, (claim_C7 pB2 cfg0).2 pB (by decide)⟩

/-- C8: an unrecognized sector is treated as not designated, so the
evaluation still completes and the required quota falls back to the
free-zone and headcount rules. -/
theorem claim_C8 (p : CompanyProfile) (c : RiskConfig)
    (h : p.sector ∉ c.designatedSectors) :
    isDesignated p.sector c = false ∧
    (RiskEngine.evaluate p c).requiredCount =
      (if p.jurisdiction = Jurisdiction.freezone then 0
        else if c.largeEstablishmentThreshold ≤ p.skilledEmployees then
          (((p.skilledEmployees * c.targetPercent + 99) / 100 : ℕ) : ℤ)
        else 0) := by
  have hdes : isDesignated p.sector c = false := by
    unfold isDesignated
    simpa using h
  refine ⟨hdes, ?_⟩
  show RiskEngine.requiredCount p c = _
  unfold RiskEngine.requiredCount
  have hband : ¬(c.smallEstablishmentMin ≤ p.totalEmployees ∧
      p.totalEmployees ≤ c.smallEstablishmentMax ∧ isDesignated p.sector c = true) := by
    intro hb
    rw [hdes] at hb
    exact absurd hb.2.2 (by simp)
  by_cases hfz : p.jurisdiction = Jurisdiction.freezone
  · rw [if_pos hfz, if_pos hfz]
  · rw [if_neg hfz, if_neg hfz, if_neg hband]

/-- Witness for C8: the sector of `pX` is unknown to `cfg0`, yet the
percentage rule still yields its quota. -/
theorem claim_C8_witness :
    pX.sector ∉ cfg0.designatedSectors ∧
      (isDesignated pX.sector cfg0 = false ∧
        (RiskEngine.evaluate pX cfg0).requiredCount =
          (if pX.jurisdiction = Jurisdiction.freezone then 0
            else if cfg0.largeEstablishmentThreshold ≤ pX.skilledEmployees then
              (((pX.skilledEmployees * cfg0.targetPercent + 99) / 100 : ℕ) : ℤ)
            else 0)) :=
  ⟨by decide, claim_C8 pX cfg0 (by decide)⟩

/-- C9: evaluation is deterministic and free of hidden state: the result
handed to the persistence layer is exactly `evaluate p c`, a repeated
call from the post-call state returns the same result, and the result
does not depend on the storage state at all. -/
theorem claim_C9 (s : SpecStorage) (p : CompanyProfile) (c : RiskConfig) :
    (s.createAssessment p c).1 = RiskEngine.evaluate p c ∧
    ((s.createAssessment p c).2.createAssessment p c).1 = (s.createAssessment p c).1 ∧
    ∀ s' : SpecStorage, (s'.createAssessment p c).1 = (s.createAssessment p c).1 :=
  ⟨rfl, rfl, fun _ => rfl⟩

/-- C10: `MemStorage.createAssessment` with an unknown industry id fails
with "Industry not found" and leaves the whole storage state unchanged. -/
theorem claim_C10 (s : MemStorage) (ins : InsertAssessment) (now : String)
    (h : s.getIndustry ins.industryId = none) :
    s.createAssessment ins now = (Except.error "Industry not found", s) := by
  unfold MemStorage.createAssessment
  rw [h]

/-- Witness for C10: an empty storage has no industry 1, and creating an
assessment against it fails without touching the state. -/
theorem claim_C10_witness :
    MemStorage.getIndustry ⟨[], [], [], 1, 1, 1⟩ 1 = none ∧
      MemStorage.createAssessment ⟨[], [], [], 1, 1, 1⟩ ⟨1, "mainland", 0, 0, 0⟩ "t" =
        (Except.error "Industry not found", (⟨[], [], [], 1, 1, 1⟩ : MemStorage)) :=
  ⟨rfl, claim_C10 _ _ _ rfl⟩

end Emiratisation
